import Mathlib

/-!
Shallow embedding of `src/EX - 1/school-management-backend/src/controllers/course.controller.js`.

The controller exposes five Express handlers (createCourse, getAllCourses,
getCourseById, updateCourse, deleteCourse) over a Sequelize-style ORM layer
(`db.Course`, `db.Student`, `db.Teacher`).  Each handler is embedded as a pure
function from the request and an abstract data-access collaborator to the HTTP
response together with the trace of collaborator calls it issued.  Collaborator
calls may fail (`Except String`), mirroring the `try/catch` blocks in the
source.  A concrete in-memory reference collaborator (`seqDB`) gives the
standard count/findAll semantics used by the list-pagination theorems.
-/

namespace SchoolMgmt

/-- Numeric value of a hexadecimal digit character, `none` otherwise. -/
def hexDigitVal (c : Char) : Option Nat :=
  if '0' ≤ c ∧ c ≤ '9' then some (c.toNat - '0'.toNat)
  else if 'a' ≤ c ∧ c ≤ 'f' then some (c.toNat - 'a'.toNat + 10)
  else if 'A' ≤ c ∧ c ≤ 'F' then some (c.toNat - 'A'.toNat + 10)
  else none

/-- Accumulate the longest prefix of digits valid in the given base, as JS
`parseInt` does; the accumulator is `none` until a first digit is read. -/
def parseDigits (base : Nat) : List Char → Option Nat → Option Nat
  | [], acc => acc
  | c :: rest, acc =>
    match hexDigitVal c with
    | some d => if d < base then parseDigits base rest (some (acc.getD 0 * base + d)) else acc
    | none => acc

/-- Embedding of JavaScript `parseInt(s)` (radix unspecified): skip leading
whitespace, optional sign, optional `0x`/`0X` hex prefix, then the longest
digit prefix; `none` models the `NaN` result. -/
def jsParseInt (s : String) : Option Int :=
  let cs := s.data.dropWhile (fun c => c.isWhitespace)
  let signed : Int × List Char :=
    match cs with
    | '-' :: r => (-1, r)
    | '+' :: r => (1, r)
    | r => (1, r)
  let based : Nat × List Char :=
    match signed.2 with
    | '0' :: 'x' :: r => (16, r)
    | '0' :: 'X' :: r => (16, r)
    | r => (10, r)
  match parseDigits based.1 based.2 none with
  | none => none
  | some n => some (signed.1 * n)

/-- Embedding of the JS expression `v || d` applied to a number `v`:
`NaN` (here `none`) and `0` are falsy and yield the default. -/
def jsOrDefault (v : Option Int) (d : Int) : Int :=
  match v with
  | none => d
  | some n => if n = 0 then d else n

/-- Query-string parameters read by `getAllCourses` (`req.query`); an absent
parameter is `none`. -/
structure ReqQuery where
  page : Option String := none
  limit : Option String := none
  sort : Option String := none
  populate : Option String := none
deriving DecidableEq

/-- Request body: a JSON object modelled as key/value pairs (the controller
never inspects it, passing it raw to the collaborator). -/
def ReqBody := List (String × String)
deriving instance DecidableEq for ReqBody

/-- The parts of the Express request the controller reads: `req.params.id`,
`req.query` and `req.body`. -/
structure Request where
  paramsId : String := ""
  query : ReqQuery := {}
  body : ReqBody := []
deriving DecidableEq

/-- Source line 81: `const limit = parseInt(req.query.limit) || 10;`
(`parseInt(undefined)` is `NaN`, hence the `Option.bind`). -/
def limitOf (q : ReqQuery) : Int :=
  jsOrDefault (q.limit.bind jsParseInt) 10

/-- Source line 82: `const page = parseInt(req.query.page) || 1;` -/
def pageOf (q : ReqQuery) : Int :=
  jsOrDefault (q.page.bind jsParseInt) 1

/-- Sequelize ordering direction strings `'ASC'` / `'DESC'`. -/
inductive SortDir where
  | ASC
  | DESC
deriving DecidableEq

/-- Source line 83: `const sortOrder = req.query.sort === 'desc' ? 'DESC' : 'ASC';` -/
def sortOrderOf (q : ReqQuery) : SortDir :=
  if q.sort = some "desc" then SortDir.DESC else SortDir.ASC

/-- Embedding of JS `String.prototype.split(',')` on the character list:
fields between commas, empty fields preserved. -/
def splitOnComma : List Char → List Char → List String
  | [], acc => [String.mk acc.reverse]
  | c :: rest, acc =>
    if c = ',' then String.mk acc.reverse :: splitOnComma rest []
    else splitOnComma rest (c :: acc)

/-- Embedding of JS `String.prototype.trim()`: strip leading and trailing
whitespace. -/
def jsTrim (s : String) : String :=
  String.mk ((s.data.dropWhile Char.isWhitespace).reverse.dropWhile Char.isWhitespace).reverse

/-- Embedding of JS `String.prototype.toLowerCase()` on the ASCII tokens this
controller compares against. -/
def jsToLower (s : String) : String :=
  String.mk (s.data.map Char.toLower)

/-- Source lines 85-88: split the `populate` parameter on commas, trimming and
lowercasing each token; an absent or empty (falsy) value yields `[]`. -/
def populateListOf (q : ReqQuery) : List String :=
  match q.populate with
  | none => []
  | some s => if s = "" then [] else (splitOnComma s.data []).map (fun p => jsToLower (jsTrim p))

/-- The two associated models the controller may ask the collaborator to
expand (`db.Student`, `db.Teacher`). -/
inductive IncludeModel where
  | student
  | teacher
deriving DecidableEq

/-- Source lines 90-96: build the `include` array, pushing `db.Student` when
the token list contains `'students'` and `db.Teacher` when it contains
`'teachers'`. -/
def includeOf (q : ReqQuery) : List IncludeModel :=
  (if (populateListOf q).contains "students" then [IncludeModel.student] else []) ++
  (if (populateListOf q).contains "teachers" then [IncludeModel.teacher] else [])

/-- The options object handed to `db.Course.findAll` (source lines 102-108):
`include` is `undefined` (`none`) when the list is empty; `order` is the array
`[['createdAt', sortOrder]]`. -/
structure FindAllQuery where
  includes : Option (List IncludeModel)
  limit : Int
  offset : Int
  order : List (String × SortDir)
deriving DecidableEq

/-- The `findAll` options built by `getAllCourses` (source lines 81-96 and
104-106): `include.length > 0 ? include : undefined`, `limit`, `offset =
(page - 1) * limit`, `order = [['createdAt', sortOrder]]`. -/
def getAllQuery (q : ReqQuery) : FindAllQuery :=
  let inc := includeOf q
  { includes := if inc.length > 0 then some inc else none
    limit := limitOf q
    offset := (pageOf q - 1) * limitOf q
    order := [("createdAt", sortOrderOf q)] }

/-- A persisted Course record. -/
structure Course where
  id : Nat
  title : String
  description : String
  teacherId : Nat
  createdAt : Nat
deriving DecidableEq

/-- Pagination metadata of the list response (source lines 110-114). -/
structure ListMeta where
  totalItems : Nat
  page : Int
  totalPages : Int
deriving DecidableEq

/-- JSON bodies the controller can send. -/
inductive ResBody where
  | courseData : Course → ResBody
  | listData : ListMeta → List Course → ResBody
  | message : String → ResBody
  | errorMsg : String → ResBody
deriving DecidableEq

/-- An HTTP response: status code and JSON body. -/
structure Response where
  status : Nat
  body : ResBody
deriving DecidableEq

/-- One call to the data-access collaborator, as observable from the handler:
the operation and the arguments the handler passed. -/
inductive DBCall where
  | count
  | findAll : FindAllQuery → DBCall
  | findByPk : String → Option (List IncludeModel) → DBCall
  | createRec : ReqBody → DBCall
  | instUpdate : Course → ReqBody → DBCall
  | instDestroy : Course → DBCall
deriving DecidableEq

/-- Is this collaborator call a mutation of persistent state? -/
def DBCall.isMutation : DBCall → Bool
  | DBCall.createRec _ => true
  | DBCall.instUpdate _ _ => true
  | DBCall.instDestroy _ => true
  | _ => false

/-- Behaviour of the data-access collaborator: each operation either returns a
result or raises (`Except.error` carries `err.message`). -/
structure DBSpec where
  countR : Except String Nat
  findAllR : FindAllQuery → Except String (List Course)
  findByPkR : String → Option (List IncludeModel) → Except String (Option Course)
  createR : ReqBody → Except String Course
  updateR : Course → ReqBody → Except String Course
  destroyR : Course → Except String Unit

/-- Source lines 36-43: `createCourse` delegates the raw body to
`db.Course.create`; 201 with the record on success, 500 with the error message
on any exception.  The second component records the collaborator calls made. -/
def createCourse (req : Request) (db : DBSpec) : Response × List DBCall :=
  match db.createR req.body with
  | Except.error e => (⟨500, ResBody.errorMsg e⟩, [DBCall.createRec req.body])
  | Except.ok c => (⟨201, ResBody.courseData c⟩, [DBCall.createRec req.body])

/-- Ceiling of the rational `a / b` for integers, `b ≠ 0`: the value of the JS
expression `Math.ceil(a / b)` on exact integer arguments. -/
def mathCeilDiv (a b : Int) : Int :=
  -((-a).fdiv b)

/-- Source lines 79-121: `getAllCourses` parses pagination/sort/populate
parameters, counts all courses, computes `totalPages = Math.ceil(total /
limit)`, fetches the page, and answers with `{meta, data}`; any collaborator
exception yields 500 with the error message. -/
def getAllCourses (req : Request) (db : DBSpec) : Response × List DBCall :=
  let q := req.query
  match db.countR with
  | Except.error e => (⟨500, ResBody.errorMsg e⟩, [DBCall.count])
  | Except.ok total =>
    let totalPages : Int := mathCeilDiv (total : Int) (limitOf q)
    let faq := getAllQuery q
    match db.findAllR faq with
    | Except.error e => (⟨500, ResBody.errorMsg e⟩, [DBCall.count, DBCall.findAll faq])
    | Except.ok courses =>
      (⟨200, ResBody.listData ⟨total, pageOf q, totalPages⟩ courses⟩,
       [DBCall.count, DBCall.findAll faq])

/-- Source lines 142-150: `getCourseById` fetches by primary key with both
`db.Student` and `db.Teacher` unconditionally included; 404 `{message: 'Not
found'}` on no match, 200 with the record on match, 500 on exception. -/
def getCourseById (req : Request) (db : DBSpec) : Response × List DBCall :=
  let inc := some [IncludeModel.student, IncludeModel.teacher]
  match db.findByPkR req.paramsId inc with
  | Except.error e => (⟨500, ResBody.errorMsg e⟩, [DBCall.findByPk req.paramsId inc])
  | Except.ok none => (⟨404, ResBody.message "Not found"⟩, [DBCall.findByPk req.paramsId inc])
  | Except.ok (some c) => (⟨200, ResBody.courseData c⟩, [DBCall.findByPk req.paramsId inc])

/-- Source lines 174-183: `updateCourse` fetches by primary key (no include),
404 on no match, otherwise applies the raw body via `course.update` and
answers with the updated record; 500 on exception. -/
def updateCourse (req : Request) (db : DBSpec) : Response × List DBCall :=
  match db.findByPkR req.paramsId none with
  | Except.error e => (⟨500, ResBody.errorMsg e⟩, [DBCall.findByPk req.paramsId none])
  | Except.ok none => (⟨404, ResBody.message "Not found"⟩, [DBCall.findByPk req.paramsId none])
  | Except.ok (some c) =>
    match db.updateR c req.body with
    | Except.error e =>
      (⟨500, ResBody.errorMsg e⟩,
       [DBCall.findByPk req.paramsId none, DBCall.instUpdate c req.body])
    | Except.ok c' =>
      (⟨200, ResBody.courseData c'⟩,
       [DBCall.findByPk req.paramsId none, DBCall.instUpdate c req.body])

/-- Source lines 202-211: `deleteCourse` fetches by primary key (no include),
404 on no match, otherwise destroys the record and answers `{message:
'Deleted'}`; 500 on exception. -/
def deleteCourse (req : Request) (db : DBSpec) : Response × List DBCall :=
  match db.findByPkR req.paramsId none with
  | Except.error e => (⟨500, ResBody.errorMsg e⟩, [DBCall.findByPk req.paramsId none])
  | Except.ok none => (⟨404, ResBody.message "Not found"⟩, [DBCall.findByPk req.paramsId none])
  | Except.ok (some c) =>
    match db.destroyR c with
    | Except.error e =>
      (⟨500, ResBody.errorMsg e⟩,
       [DBCall.findByPk req.paramsId none, DBCall.instDestroy c])
    | Except.ok _ =>
      (⟨200, ResBody.message "Deleted"⟩,
       [DBCall.findByPk req.paramsId none, DBCall.instDestroy c])

/-- Insert a course into a list already ordered by `le` (insertion sort step). -/
def insertBy (le : Course → Course → Bool) (c : Course) : List Course → List Course
  | [] => [c]
  | x :: xs => if le c x then c :: x :: xs else x :: insertBy le c xs

/-- Insertion sort of a course list by `le`. -/
def sortBy (le : Course → Course → Bool) : List Course → List Course
  | [] => []
  | x :: xs => insertBy le x (sortBy le xs)

/-- Comparison on creation timestamps in the given direction. -/
def cmpDir (dir : SortDir) (a b : Course) : Bool :=
  match dir with
  | SortDir.ASC => a.createdAt ≤ b.createdAt
  | SortDir.DESC => b.createdAt ≤ a.createdAt

/-- Apply a Sequelize `order` array to a course list; only the shape
`[['createdAt', dir]]` built by this controller is given meaning. -/
def applyOrder (ord : List (String × SortDir)) (l : List Course) : List Course :=
  match ord with
  | [(attr, d)] => if attr = "createdAt" then sortBy (cmpDir d) l else l
  | _ => l

/-- Reference model of the ORM collaborator over an in-memory store:
`count` is the store size; `findAll` orders, then applies `OFFSET` and
`LIMIT` (rejecting negative values, as the SQL layer does); `findByPk`
looks up by stringified id.  `create`/`update`/`destroy` succeed vacuously
(they are not exercised by the theorems below). -/
def seqDB (store : List Course) : DBSpec where
  countR := Except.ok store.length
  findAllR := fun faq =>
    if faq.limit < 0 ∨ faq.offset < 0 then Except.error "negative limit or offset"
    else Except.ok (((applyOrder faq.order store).drop faq.offset.toNat).take faq.limit.toNat)
  findByPkR := fun idp _ => Except.ok (store.find? (fun c => toString c.id = idp))
  createR := fun _ => Except.ok ⟨0, "", "", 0, 0⟩
  updateR := fun c _ => Except.ok c
  destroyR := fun _ => Except.ok ()

/-! ## Helper lemmas -/

/-- Characterization of `getAllCourses` run against the in-memory reference
collaborator: either a rejected negative limit/offset (500) or the 200 list
response with full count, requested page, ceiling page count and the ordered,
offset, limited data slice. -/
theorem getAllCourses_seqDB (store : List Course) (req : Request) :
    (getAllCourses req (seqDB store)).1 =
      if (getAllQuery req.query).limit < 0 ∨ (getAllQuery req.query).offset < 0 then
        ⟨500, ResBody.errorMsg "negative limit or offset"⟩
      else
        ⟨200, ResBody.listData
          ⟨store.length, pageOf req.query,
            mathCeilDiv (store.length : Int) (limitOf req.query)⟩
          (((applyOrder (getAllQuery req.query).order store).drop
              (getAllQuery req.query).offset.toNat).take
            (getAllQuery req.query).limit.toNat)⟩ := by
  unfold getAllCourses seqDB
  by_cases h : (getAllQuery req.query).limit < 0 ∨ (getAllQuery req.query).offset < 0 <;>
    simp [h]

/-- C2: for a successful list request with positive effective limit, the meta
reports `totalPages = ceil(totalItems / limit)` and the data page is no longer
than the limit. -/
theorem getAllCourses_pagination_correct (store : List Course) (req : Request)
    (h : 0 < limitOf req.query) (m : ListMeta) (d : List Course)
    (hs : (getAllCourses req (seqDB store)).1 = ⟨200, ResBody.listData m d⟩) :
    m.totalPages = mathCeilDiv (m.totalItems : Int) (limitOf req.query) ∧
    (d.length : Int) ≤ limitOf req.query := by
  rw [getAllCourses_seqDB] at hs
  split at hs
  · simp only [Response.mk.injEq] at hs
    exact absurd hs.1 (by decide)
  · have hb := congrArg Response.body hs
    simp only [ResBody.listData.injEq] at hb
    obtain ⟨hm, hd⟩ := hb
    constructor
    · rw [← hm]
    · rw [← hd]
      calc ((((applyOrder (getAllQuery req.query).order store).drop
                (getAllQuery req.query).offset.toNat).take
              (getAllQuery req.query).limit.toNat).length : Int)
          ≤ ((getAllQuery req.query).limit.toNat : Int) := by
            exact_mod_cast List.length_take_le _ _
        _ = limitOf req.query := Int.toNat_of_nonneg h.le

/-- Concrete course records for witness instantiations. -/
def sampleCourse1 : Course := ⟨1, "Algebra", "Intro", 3, 1⟩

/-- Second concrete course record. -/
def sampleCourse2 : Course := ⟨2, "Geometry", "Shapes", 3, 2⟩

/-- Third concrete course record. -/
def sampleCourse3 : Course := ⟨3, "Calculus", "Rates", 4, 3⟩

/-- A concrete three-course store, already in ascending creation order. -/
def sampleStore : List Course := [sampleCourse1, sampleCourse2, sampleCourse3]

/-- Witness for C2: a three-course store listed with default parameters
(limit 10, page 1) yields `totalPages = ceil(3 / 10) = 1` and at most 10
records. -/
theorem getAllCourses_pagination_correct_witness :
    (⟨3, 1, 1⟩ : ListMeta).totalPages =
        mathCeilDiv (((⟨3, 1, 1⟩ : ListMeta).totalItems : Nat) : Int)
          (limitOf ({} : Request).query) ∧
    ((sampleStore.length : Int) ≤ limitOf ({} : Request).query) :=
  getAllCourses_pagination_correct sampleStore {} (by decide) ⟨3, 1, 1⟩ sampleStore (by decide)

/-- C9: in every successful list response, `meta.totalItems` is the size of
the whole store, independent of page, limit, sort and populate parameters. -/
theorem getAllCourses_totalItems_unfiltered (store : List Course) (req : Request)
    (m : ListMeta) (d : List Course)
    (hs : (getAllCourses req (seqDB store)).1 = ⟨200, ResBody.listData m d⟩) :
    m.totalItems = store.length := by
  rw [getAllCourses_seqDB] at hs
  split at hs
  · simp only [Response.mk.injEq] at hs
    exact absurd hs.1 (by decide)
  · have hb := congrArg Response.body hs
    simp only [ResBody.listData.injEq] at hb
    rw [← hb.1]

/-- Witness for C9: a filtered, sorted, paginated request over the sample
store still reports `totalItems = 3`. -/
theorem getAllCourses_totalItems_unfiltered_witness :
    (⟨3, 2, 2⟩ : ListMeta).totalItems = sampleStore.length :=
  getAllCourses_totalItems_unfiltered sampleStore
    { query := { page := some "2", limit := some "2", sort := some "desc" } }
    ⟨3, 2, 2⟩ [sampleCourse1] (by decide)

/-- C1 counterexample: against an empty store, all three by-id handlers answer
404, but the body is `{message: 'Not found'}` — not the claimed exact body
`{message: 'Not Found'}` (capital F). -/
theorem notFound_body_counterexample :
    (getCourseById { paramsId := "1" } (seqDB [])).1 = ⟨404, ResBody.message "Not found"⟩ ∧
    (getCourseById { paramsId := "1" } (seqDB [])).1 ≠ ⟨404, ResBody.message "Not Found"⟩ ∧
    (updateCourse { paramsId := "1" } (seqDB [])).1 ≠ ⟨404, ResBody.message "Not Found"⟩ ∧
    (deleteCourse { paramsId := "1" } (seqDB [])).1 ≠ ⟨404, ResBody.message "Not Found"⟩ := by
  decide

/-- C1 (amended): whenever the primary-key lookup finds no record,
`getCourseById`, `updateCourse` and `deleteCourse` all answer HTTP 404 with
the exact JSON body `{message: 'Not found'}`. -/
theorem notFound_responses (req : Request) (db : DBSpec)
    (h1 : db.findByPkR req.paramsId (some [IncludeModel.student, IncludeModel.teacher]) =
      Except.ok none)
    (h2 : db.findByPkR req.paramsId none = Except.ok none) :
    (getCourseById req db).1 = ⟨404, ResBody.message "Not found"⟩ ∧
    (updateCourse req db).1 = ⟨404, ResBody.message "Not found"⟩ ∧
    (deleteCourse req db).1 = ⟨404, ResBody.message "Not found"⟩ := by
  refine ⟨?_, ?_, ?_⟩ <;> simp [getCourseById, updateCourse, deleteCourse, h1, h2]

/-- Witness for C1: the empty store finds no record for id "7", and all three
handlers answer 404 `{message: 'Not found'}`. -/
theorem notFound_responses_witness :
    (getCourseById { paramsId := "7" } (seqDB [])).1 = ⟨404, ResBody.message "Not found"⟩ ∧
    (updateCourse { paramsId := "7" } (seqDB [])).1 = ⟨404, ResBody.message "Not found"⟩ ∧
    (deleteCourse { paramsId := "7" } (seqDB [])).1 = ⟨404, ResBody.message "Not found"⟩ :=
  notFound_responses { paramsId := "7" } (seqDB []) rfl rfl

/-- C7: `getCourseById` always issues exactly one collaborator call, a
primary-key fetch with both the Student and the Teacher associations
requested, whatever the query parameters and the collaborator behaviour. -/
theorem getCourseById_always_expands (req : Request) (db : DBSpec) :
    (getCourseById req db).2 =
      [DBCall.findByPk req.paramsId (some [IncludeModel.student, IncludeModel.teacher])] := by
  unfold getCourseById
  rcases h : db.findByPkR req.paramsId (some [IncludeModel.student, IncludeModel.teacher]) with
    e | c
  · simp [h]
  · cases c <;> simp [h]

/-- C8: when the lookup reports no matching record, `updateCourse` and
`deleteCourse` answer 404 having issued only the read-only primary-key fetch:
no mutating collaborator call occurs, so the store is unchanged. -/
theorem notFound_no_mutation (req : Request) (db : DBSpec)
    (h : db.findByPkR req.paramsId none = Except.ok none) :
    (updateCourse req db).1 = ⟨404, ResBody.message "Not found"⟩ ∧
    (updateCourse req db).2 = [DBCall.findByPk req.paramsId none] ∧
    (∀ call ∈ (updateCourse req db).2, call.isMutation = false) ∧
    (deleteCourse req db).1 = ⟨404, ResBody.message "Not found"⟩ ∧
    (deleteCourse req db).2 = [DBCall.findByPk req.paramsId none] ∧
    (∀ call ∈ (deleteCourse req db).2, call.isMutation = false) := by
  refine ⟨?_, ?_, ?_, ?_, ?_, ?_⟩ <;>
    simp [updateCourse, deleteCourse, h, DBCall.isMutation]

/-- Witness for C8: updating or deleting id "9" against the empty store
answers 404 after the single read-only fetch. -/
theorem notFound_no_mutation_witness :
    (updateCourse { paramsId := "9" } (seqDB [])).1 = ⟨404, ResBody.message "Not found"⟩ ∧
    (updateCourse { paramsId := "9" } (seqDB [])).2 = [DBCall.findByPk "9" none] ∧
    (∀ call ∈ (updateCourse { paramsId := "9" } (seqDB [])).2, call.isMutation = false) ∧
    (deleteCourse { paramsId := "9" } (seqDB [])).1 = ⟨404, ResBody.message "Not found"⟩ ∧
    (deleteCourse { paramsId := "9" } (seqDB [])).2 = [DBCall.findByPk "9" none] ∧
    (∀ call ∈ (deleteCourse { paramsId := "9" } (seqDB [])).2, call.isMutation = false) :=
  notFound_no_mutation { paramsId := "9" } (seqDB []) rfl

/-- C4: every collaborator exception, at every call site of the five handlers,
is surfaced as HTTP 500 with body `{error: <the raised message>}`, with no
distinction between kinds of errors. -/
theorem collaborator_error_responds_500 (req : Request) (db : DBSpec) (e : String) :
    (db.createR req.body = Except.error e →
      (createCourse req db).1 = ⟨500, ResBody.errorMsg e⟩) ∧
    (db.countR = Except.error e →
      (getAllCourses req db).1 = ⟨500, ResBody.errorMsg e⟩) ∧
    (∀ t, db.countR = Except.ok t →
      db.findAllR (getAllQuery req.query) = Except.error e →
      (getAllCourses req db).1 = ⟨500, ResBody.errorMsg e⟩) ∧
    (db.findByPkR req.paramsId (some [IncludeModel.student, IncludeModel.teacher]) =
        Except.error e →
      (getCourseById req db).1 = ⟨500, ResBody.errorMsg e⟩) ∧
    (db.findByPkR req.paramsId none = Except.error e →
      (updateCourse req db).1 = ⟨500, ResBody.errorMsg e⟩ ∧
      (deleteCourse req db).1 = ⟨500, ResBody.errorMsg e⟩) ∧
    (∀ c, db.findByPkR req.paramsId none = Except.ok (some c) →
      (db.updateR c req.body = Except.error e →
        (updateCourse req db).1 = ⟨500, ResBody.errorMsg e⟩) ∧
      (db.destroyR c = Except.error e →
        (deleteCourse req db).1 = ⟨500, ResBody.errorMsg e⟩)) := by
  refine ⟨fun h => ?_, fun h => ?_, fun t ht h => ?_, fun h => ?_,
    fun h => ⟨?_, ?_⟩, fun c hc => ⟨fun h => ?_, fun h => ?_⟩⟩ <;>
    simp [createCourse, getAllCourses, getCourseById, updateCourse, deleteCourse, *]

/-- Collaborator whose every operation raises, carrying message "boom". -/
def raisingDB : DBSpec where
  countR := Except.error "boom"
  findAllR := fun _ => Except.error "boom"
  findByPkR := fun _ _ => Except.error "boom"
  createR := fun _ => Except.error "boom"
  updateR := fun _ _ => Except.error "boom"
  destroyR := fun _ => Except.error "boom"

/-- Collaborator whose reads succeed but whose later calls raise "down",
exercising the second call site of each multi-call handler. -/
def lateFailDB : DBSpec where
  countR := Except.ok 0
  findAllR := fun _ => Except.error "down"
  findByPkR := fun _ _ => Except.ok (some sampleCourse1)
  createR := fun _ => Except.ok sampleCourse1
  updateR := fun _ _ => Except.error "down"
  destroyR := fun _ => Except.error "down"

/-- Witness for C4: each handler, at a concrete request, answers 500 with the
raised message for both the first-call and the second-call failure sites. -/
theorem collaborator_error_responds_500_witness :
    (createCourse {} raisingDB).1 = ⟨500, ResBody.errorMsg "boom"⟩ ∧
    (getAllCourses {} raisingDB).1 = ⟨500, ResBody.errorMsg "boom"⟩ ∧
    (getCourseById {} raisingDB).1 = ⟨500, ResBody.errorMsg "boom"⟩ ∧
    (updateCourse {} raisingDB).1 = ⟨500, ResBody.errorMsg "boom"⟩ ∧
    (deleteCourse {} raisingDB).1 = ⟨500, ResBody.errorMsg "boom"⟩ ∧
    (getAllCourses {} lateFailDB).1 = ⟨500, ResBody.errorMsg "down"⟩ ∧
    (updateCourse {} lateFailDB).1 = ⟨500, ResBody.errorMsg "down"⟩ ∧
    (deleteCourse {} lateFailDB).1 = ⟨500, ResBody.errorMsg "down"⟩ :=
  ⟨(collaborator_error_responds_500 {} raisingDB "boom").1 rfl,
   (collaborator_error_responds_500 {} raisingDB "boom").2.1 rfl,
   (collaborator_error_responds_500 {} raisingDB "boom").2.2.2.1 rfl,
   ((collaborator_error_responds_500 {} raisingDB "boom").2.2.2.2.1 rfl).1,
   ((collaborator_error_responds_500 {} raisingDB "boom").2.2.2.2.1 rfl).2,
   (collaborator_error_responds_500 {} lateFailDB "down").2.2.1 0 rfl rfl,
   ((collaborator_error_responds_500 {} lateFailDB "down").2.2.2.2.2 sampleCourse1 rfl).1 rfl,
   ((collaborator_error_responds_500 {} lateFailDB "down").2.2.2.2.2 sampleCourse1 rfl).2 rfl⟩

/-- C5: the `order` array handed to the collaborator is
`[['createdAt', 'DESC']]` exactly when the sort parameter is the string
`'desc'`, and `[['createdAt', 'ASC']]` in every other case (absent or
unrecognized values included). -/
theorem sort_direction (q : ReqQuery) :
    ((getAllQuery q).order = [("createdAt", SortDir.DESC)] ↔ q.sort = some "desc") ∧
    ((getAllQuery q).order = [("createdAt", SortDir.ASC)] ↔ ¬ q.sort = some "desc") := by
  unfold getAllQuery sortOrderOf
  by_cases h : q.sort = some "desc" <;> simp [h]

/-- C6: the inclusion list carries the Student model exactly when the trimmed,
lowercased comma-tokens of `populate` contain `'students'`, the Teacher model
exactly when they contain `'teachers'`; an absent `populate` gives the empty
inclusion list (unrecognized tokens change nothing, raising no error). -/
theorem populate_inclusion (q : ReqQuery) :
    (IncludeModel.student ∈ includeOf q ↔ "students" ∈ populateListOf q) ∧
    (IncludeModel.teacher ∈ includeOf q ↔ "teachers" ∈ populateListOf q) ∧
    (q.populate = none → includeOf q = []) := by
  refine ⟨?_, ?_, fun h => ?_⟩
  · by_cases hs : "students" ∈ populateListOf q <;>
      by_cases ht : "teachers" ∈ populateListOf q <;>
        simp [includeOf, hs, ht]
  · by_cases hs : "students" ∈ populateListOf q <;>
      by_cases ht : "teachers" ∈ populateListOf q <;>
        simp [includeOf, hs, ht]
  · simp [includeOf, populateListOf, h]

/-- Witness for C6: an absent `populate` yields the empty inclusion list, and
on the concrete value `' Students ,bogus'` the Student iff holds. -/
theorem populate_inclusion_witness :
    includeOf {} = [] ∧
    (IncludeModel.student ∈ includeOf { populate := some " Students ,bogus" } ↔
      "students" ∈ populateListOf { populate := some " Students ,bogus" }) :=
  ⟨(populate_inclusion {}).2.2 rfl,
   (populate_inclusion { populate := some " Students ,bogus" }).1⟩

/-- C10: the effective limit — the divisor of the `totalPages` ceiling
division — is never zero: a missing, non-numeric, or zero `limit` parameter is
replaced by the default 10. -/
theorem effective_limit_never_zero (q : ReqQuery) :
    limitOf q ≠ 0 ∧
    (q.limit = none → limitOf q = 10) ∧
    (∀ s, q.limit = some s → jsParseInt s = none → limitOf q = 10) ∧
    (∀ s, q.limit = some s → jsParseInt s = some 0 → limitOf q = 10) := by
  have hz : limitOf q ≠ 0 := by
    unfold limitOf jsOrDefault
    rcases q.limit.bind jsParseInt with _ | n
    · simp
    · by_cases hn : n = 0 <;> simp [hn]
  refine ⟨hz, fun h => ?_, fun s h hp => ?_, fun s h hp => ?_⟩
  · simp [limitOf, jsOrDefault, h]
  · simp [limitOf, jsOrDefault, h, hp]
  · simp [limitOf, jsOrDefault, h, hp]

/-- Witness for C10: a non-numeric limit and a zero limit both fall back to
10, which is nonzero. -/
theorem effective_limit_never_zero_witness :
    limitOf { limit := some "abc" } ≠ 0 ∧
    limitOf { limit := some "abc" } = 10 ∧
    limitOf { limit := some "0" } = 10 :=
  ⟨(effective_limit_never_zero { limit := some "abc" }).1,
   (effective_limit_never_zero { limit := some "abc" }).2.2.1 "abc" rfl (by decide),
   (effective_limit_never_zero { limit := some "0" }).2.2.2 "0" rfl (by decide)⟩

/-- C3 counterexample: `page=0&limit=0` both parse to 0, yet the query handed
to the collaborator carries limit 10 and page 1 (offset 0): the falsy-`||`
fallback replaces zero, so zero is NOT passed through unchanged. -/
theorem pagination_passthrough_counterexample :
    jsParseInt "0" = some 0 ∧
    (getAllQuery { page := some "0", limit := some "0" }).limit = 10 ∧
    ¬ (getAllQuery { page := some "0", limit := some "0" }).limit = 0 ∧
    pageOf { page := some "0", limit := some "0" } = 1 ∧
    (getAllQuery { page := some "0", limit := some "0" }).offset = 0 := by
  decide

/-- C3 (amended): a page or limit parameter parsing to a NEGATIVE integer
passes through without any guard — a negative limit reaches the collaborator's
limit and the offset product unchanged, and a negative page reaches the offset
`(page-1)*limit` unchanged — while a zero parse is coalesced to the defaults
(page 1, limit 10) by the `||` fallback.  The query so built is exactly what
`getAllCourses` hands to the collaborator's `findAll`. -/
theorem negative_pagination_passthrough (req : Request) (db : DBSpec) (t : Nat)
    (hdb : db.countR = Except.ok t) :
    (getAllCourses req db).2 =
      [DBCall.count, DBCall.findAll (getAllQuery req.query)] ∧
    (∀ s l, req.query.limit = some s → jsParseInt s = some l → l < 0 →
      (getAllQuery req.query).limit = l ∧
      (getAllQuery req.query).offset = (pageOf req.query - 1) * l) ∧
    (∀ s p, req.query.page = some s → jsParseInt s = some p → p < 0 →
      pageOf req.query = p ∧
      (getAllQuery req.query).offset = (p - 1) * limitOf req.query) := by
  refine ⟨?_, fun s l hs hl hneg => ?_, fun s p hs hp hneg => ?_⟩
  · rcases hfa : db.findAllR (getAllQuery req.query) with e | cs <;>
      simp [getAllCourses, hdb, hfa]
  · have hl0 : l ≠ 0 := by omega
    have hleff : limitOf req.query = l := by
      simp [limitOf, jsOrDefault, hs, hl, hl0]
    exact ⟨by simp [getAllQuery, hleff], by simp [getAllQuery, hleff]⟩
  · have hp0 : p ≠ 0 := by omega
    have hpeff : pageOf req.query = p := by
      simp [pageOf, jsOrDefault, hs, hp, hp0]
    exact ⟨hpeff, by simp [getAllQuery, hpeff]⟩

/-- Witness for C3: `page=-2` with an absent limit reaches the offset as
`(-2 - 1) * 10 = -30`, and `limit=-5` with `page=3` reaches the collaborator's
limit unchanged; the built query is the one handed to `findAll`. -/
theorem negative_pagination_passthrough_witness :
    (getAllCourses { query := { page := some "-2" } } (seqDB sampleStore)).2 =
      [DBCall.count, DBCall.findAll (getAllQuery { page := some "-2" })] ∧
    (pageOf { page := some "-2" } = -2 ∧
      (getAllQuery { page := some "-2" }).offset =
        (-2 - 1) * limitOf { page := some "-2" }) ∧
    ((getAllQuery { page := some "3", limit := some "-5" }).limit = -5 ∧
      (getAllQuery { page := some "3", limit := some "-5" }).offset =
        (pageOf { page := some "3", limit := some "-5" } - 1) * (-5)) :=
  ⟨(negative_pagination_passthrough { query := { page := some "-2" } }
      (seqDB sampleStore) 3 rfl).1,
   (negative_pagination_passthrough { query := { page := some "-2" } }
      (seqDB sampleStore) 3 rfl).2.2 "-2" (-2) rfl (by decide) (by decide),
   (negative_pagination_passthrough { query := { page := some "3", limit := some "-5" } }
      (seqDB sampleStore) 3 rfl).2.1 "-5" (-5) rfl (by decide) (by decide)⟩

end SchoolMgmt
